import Mathlib

/-!
Shallow embedding of `src/checkoutservice/db.go` (order-persistence component
of the checkout service): the `OrderStore` data model, `maskCreditCard`,
`SaveOrder`, `GetOrder`, `GetUserOrders` and `InitDB`, together with theorems
settling the specification claims about them.

Modelling conventions:
* Go strings are modelled as `List Char` (`GoStr`); Go's byte-based `len` and
  slicing become list `length` and `drop`.
* The relational store is a `DBState`: the row lists of the `orders` and
  `order_items` tables, the `SERIAL` counter for `order_items.id`, and a
  logical clock `now` standing for `time.Now()` at the next write.
* Infrastructure failures of the engine (begin/exec/commit failing for
  external reasons) are injected through a step oracle; constraint failures
  (duplicate primary key) are determined by the state, as in the engine.
* A transaction is modelled by building the candidate rows and installing
  them only on commit; every error path returns the caller's original state,
  which is exactly what `tx.Rollback()` in the deferred handler achieves.
* `float64` arithmetic on the order total is modelled exactly, over `Rat`.
-/

/-- Go `string`, viewed as its sequence of characters. -/
abbrev GoStr := List Char

/-- Coerce a Lean string literal to the `GoStr` model. -/
def gs (s : String) : GoStr := s.toList

/-- The subset of `pb.Address` read by `SaveOrder`. -/
structure Address where
  StreetAddress : GoStr
  City : GoStr
  State : GoStr
  Country : GoStr
  ZipCode : GoStr
deriving DecidableEq

/-- The subset of `pb.CreditCardInfo` read by `SaveOrder`. -/
structure CreditCardInfo where
  CreditCardNumber : GoStr
  CreditCardCvv : GoStr
  CreditCardExpirationMonth : Int
  CreditCardExpirationYear : Int
deriving DecidableEq

/-- The subset of `pb.Money` read by `SaveOrder` (`Units : int64`,
`Nanos : int32`, modelled as unbounded integers). -/
structure Money where
  CurrencyCode : GoStr
  Units : Int
  Nanos : Int
deriving DecidableEq

/-- The subset of `pb.CartItem` read by `SaveOrder`. -/
structure CartItem where
  ProductId : GoStr
  Quantity : Int
deriving DecidableEq

/-- The `Order` struct of db.go; also the row shape of the `orders` table,
whose columns correspond one to one to these fields. `CreatedAt` is the
store-side timestamp, modelled as a `Nat` tick of the logical clock. -/
structure Order where
  OrderID : GoStr
  UserID : GoStr
  Email : GoStr
  StreetAddress : GoStr
  City : GoStr
  State : GoStr
  Country : GoStr
  ZipCode : GoStr
  CreditCardNumber : GoStr
  CreditCardCVV : GoStr
  CreditCardExpirationMonth : Int
  CreditCardExpirationYear : Int
  OrderTotal : Rat
  CurrencyCode : GoStr
  ShippingTrackingID : GoStr
  CreatedAt : Nat
deriving DecidableEq

/-- The `OrderItem` struct of db.go; row shape of the `order_items` table. -/
structure OrderItem where
  ID : Nat
  OrderID : GoStr
  ProductID : GoStr
  Quantity : Int
deriving DecidableEq

/-- State of the relational store backing an `OrderStore`: the two tables,
the `SERIAL` counter for `order_items.id`, and the logical wall clock. -/
structure DBState where
  orders : List Order
  order_items : List OrderItem
  nextItemID : Nat
  now : Nat
deriving DecidableEq

/-- `maskCreditCard` from db.go: inputs shorter than 4 characters map to the
sentinel `"****"`; otherwise the fixed prefix `"****-****-****-"` is glued to
the last 4 characters (`cardNumber[len(cardNumber)-4:]`). -/
def maskCreditCard (cardNumber : GoStr) : GoStr :=
  if cardNumber.length < 4 then gs ("****")
  else gs ("****-****-****-") ++ cardNumber.drop (cardNumber.length - 4)

/-- C4: on inputs shorter than 4 characters `maskCreditCard` returns the
sentinel `"****"`; on all other inputs it returns the fixed prefix
`"****-****-****-"` followed by the input's last 4 characters unchanged;
in particular it maps `"4111111111111111"` to `"****-****-****-1111"` and
`"12"` to `"****"`. -/
theorem maskCreditCard_spec (s : GoStr) :
    (s.length < 4 → maskCreditCard s = gs ("****")) ∧
    (4 ≤ s.length →
      maskCreditCard s = gs ("****-****-****-") ++ s.drop (s.length - 4) ∧
      (s.drop (s.length - 4)).length = 4 ∧
      s.drop (s.length - 4) <:+ s) ∧
    maskCreditCard (gs ("4111111111111111")) = gs ("****-****-****-1111") ∧
    maskCreditCard (gs ("12")) = gs ("****") := by
  refine ⟨fun h => if_pos h, fun h => ?_, by decide, by decide⟩
  have hnlt : ¬ s.length < 4 := not_lt.mpr h
  refine ⟨if_neg hnlt, ?_, List.drop_suffix _ _⟩
  rw [List.length_drop]
  omega

/-- Evaluates `maskCreditCard_spec` at the two concrete inputs named by the
claim, discharging the length hypotheses there. -/
theorem maskCreditCard_spec_witness :
    maskCreditCard (gs ("12")) = gs ("****") ∧
    maskCreditCard (gs ("4111111111111111")) =
      gs ("****-****-****-") ++ (gs ("4111111111111111")).drop 12 :=
  ⟨(maskCreditCard_spec (gs ("12"))).1 (by decide),
   ((maskCreditCard_spec (gs ("4111111111111111"))).2.1 (by decide)).1⟩

/-- C10: a 4-character input is revealed in full — `maskCreditCard` returns
the fixed prefix followed by the entire input; more generally, for every
input of length at least 4, exactly its last 4 characters occur verbatim as
a suffix of the output. -/
theorem maskCreditCard_reveals_last4 (s : GoStr) :
    (s.length = 4 → maskCreditCard s = gs ("****-****-****-") ++ s) ∧
    (4 ≤ s.length →
      s.drop (s.length - 4) <:+ maskCreditCard s ∧
      (s.drop (s.length - 4)).length = 4 ∧
      s.drop (s.length - 4) <:+ s) := by
  constructor
  · intro h4
    have : maskCreditCard s = gs ("****-****-****-") ++ s.drop (s.length - 4) :=
      if_neg (by omega)
    simpa [h4] using this
  · intro h
    have hmask : maskCreditCard s = gs ("****-****-****-") ++ s.drop (s.length - 4) :=
      if_neg (not_lt.mpr h)
    refine ⟨?_, ?_, List.drop_suffix _ _⟩
    · rw [hmask]
      exact List.suffix_append _ _
    · rw [List.length_drop]
      omega

/-- Evaluates `maskCreditCard_reveals_last4` on the 4-character input
`"1234"`, discharging the length hypothesis there: the whole card number
appears in the mask's output. -/
theorem maskCreditCard_reveals_last4_witness :
    maskCreditCard (gs ("1234")) = gs ("****-****-****-") ++ gs ("1234") :=
  (maskCreditCard_reveals_last4 (gs ("1234"))).1 (by decide)

/-- The decimal order total of db.go line 72,
`orderTotal := float64(total.Units) + float64(total.Nanos)/1e9`,
modelled in exact arithmetic over `Rat`. -/
def moneyDecimal (total : Money) : Rat :=
  (total.Units : Rat) + (total.Nanos : Rat) / 1000000000

/-- The steps of a `SaveOrder` transaction at which the engine can fail for
infrastructure reasons: `BeginTx`, the header `INSERT`, the `INSERT` of the
i-th item, and `Commit`. -/
inductive SaveStep where
  | beginTx : SaveStep
  | insertOrder : SaveStep
  | insertItem : Nat → SaveStep
  | commitTx : SaveStep
deriving DecidableEq

/-- The error cases of `SaveOrder`, one per `fmt.Errorf` site in db.go; the
constructor identifies the failed stage, as the wrapped message does. -/
inductive SaveError where
  | beginFailed : SaveError
  | insertOrderFailed : SaveError
  | insertItemFailed : Nat → SaveError
  | commitFailed : SaveError
deriving DecidableEq

/-- The error cases of the readers: `sql.ErrNoRows` is turned into the
distinct "order not found: %s" condition; every other engine error is wrapped
as a generic query/decode failure. -/
inductive GetError where
  | notFound : GoStr → GetError
  | queryFailed : GetError
deriving DecidableEq

/-- The header row assembled by the `INSERT INTO orders` of `SaveOrder`:
caller fields verbatim, the card number through `maskCreditCard`, the decimal
total, and `time.Now()` (the store clock `st.now`) as `created_at`. -/
def savedRow (st : DBState) (orderID userID email : GoStr) (address : Address)
    (creditCard : CreditCardInfo) (total : Money) (trackingID : GoStr) : Order :=
  { OrderID := orderID
    UserID := userID
    Email := email
    StreetAddress := address.StreetAddress
    City := address.City
    State := address.State
    Country := address.Country
    ZipCode := address.ZipCode
    CreditCardNumber := maskCreditCard creditCard.CreditCardNumber
    CreditCardCVV := creditCard.CreditCardCvv
    CreditCardExpirationMonth := creditCard.CreditCardExpirationMonth
    CreditCardExpirationYear := creditCard.CreditCardExpirationYear
    OrderTotal := moneyDecimal total
    CurrencyCode := total.CurrencyCode
    ShippingTrackingID := trackingID
    CreatedAt := st.now }

/-- The item-insertion loop of `SaveOrder`: for the i-th `CartItem` one row
`(order_id, product_id, quantity)` is inserted (the `SERIAL` id drawn from
the counter), stopping at the first failing `INSERT`. Returns the rows the
transaction accumulated and the advanced counter. -/
def insertItems (oracle : SaveStep → Bool) (orderID : GoStr) :
    List CartItem → Nat → List OrderItem → Nat →
    Except SaveError (List OrderItem × Nat)
  | [], _, acc, nextID => Except.ok (acc, nextID)
  | item :: rest, i, acc, nextID =>
    if oracle (SaveStep.insertItem i) then
      Except.error (SaveError.insertItemFailed i)
    else
      insertItems oracle orderID rest (i + 1)
        (acc ++ [{ ID := nextID, OrderID := orderID,
                   ProductID := item.ProductId, Quantity := item.Quantity }])
        (nextID + 1)

/-- `SaveOrder` from db.go. Begin a transaction; mask the card; insert the
header row (failing on an injected fault or on a duplicate `order_id`, the
primary key); insert one row per item in input order; commit. Any failure
rolls the transaction back — the store state returned with the error is the
caller's original state — exactly as the deferred `tx.Rollback()` does. On
commit the candidate rows become durable and the clock ticks. -/
def SaveOrder (st : DBState) (oracle : SaveStep → Bool)
    (orderID userID email : GoStr) (address : Address)
    (creditCard : CreditCardInfo) (total : Money) (items : List CartItem)
    (trackingID : GoStr) : Except SaveError Unit × DBState :=
  if oracle SaveStep.beginTx then (Except.error SaveError.beginFailed, st)
  else if oracle SaveStep.insertOrder
          || st.orders.any (fun o => o.OrderID == orderID) then
    (Except.error SaveError.insertOrderFailed, st)
  else
    match insertItems oracle orderID items 0 [] st.nextItemID with
    | Except.error e => (Except.error e, st)
    | Except.ok (newItems, nid) =>
      if oracle SaveStep.commitTx then (Except.error SaveError.commitFailed, st)
      else
        (Except.ok (),
         { orders := st.orders ++
             [savedRow st orderID userID email address creditCard total trackingID]
           order_items := st.order_items ++ newItems
           nextItemID := nid
           now := st.now + 1 })

/-- `GetOrder` from db.go: point lookup `WHERE order_id = $1` on the primary
key, decoding the matching row; with no matching row, `Scan` yields
`sql.ErrNoRows` and the distinct not-found condition is returned. -/
def GetOrder (st : DBState) (orderID : GoStr) : Except GetError Order :=
  match st.orders.find? (fun o => o.OrderID == orderID) with
  | some o => Except.ok o
  | none => Except.error (GetError.notFound orderID)

/-- Row order produced by `ORDER BY created_at DESC`: a row comes no later
than another exactly when its `created_at` is no smaller. -/
def createdDesc (a b : Order) : Prop := b.CreatedAt ≤ a.CreatedAt

instance : DecidableRel createdDesc := fun a b => Nat.decLe b.CreatedAt a.CreatedAt

instance : IsTotal Order createdDesc :=
  ⟨fun a b => (Nat.le_total b.CreatedAt a.CreatedAt).imp id id⟩

instance : IsTrans Order createdDesc :=
  ⟨fun _ _ _ hab hbc => Nat.le_trans hbc hab⟩

/-- The rows of the `orders` table owned by `userID` (the result set of
`WHERE user_id = $1`, before `ORDER BY`). -/
def userOrderRows (st : DBState) (userID : GoStr) : List Order :=
  st.orders.filter (fun o => o.UserID == userID)

/-- `GetUserOrders` from db.go: all rows with the given `user_id`, returned
by the engine ordered by `created_at DESC` and decoded one by one; a user
with no rows yields the empty list, not an error. -/
def GetUserOrders (st : DBState) (userID : GoStr) : Except GetError (List Order) :=
  Except.ok (List.insertionSort createdDesc (userOrderRows st userID))

/-- The two `IF NOT EXISTS` DDL statements of `InitDB` track which tables and
indexes exist; these five flags model the schema objects db.go creates. -/
structure Schema where
  ordersTable : Bool
  idxOrdersUserId : Bool
  idxOrdersCreatedAt : Bool
  orderItemsTable : Bool
  idxOrderItemsOrderId : Bool
deriving DecidableEq

/-- The error cases of `InitDB`, one per `fmt.Errorf` site. -/
inductive InitError where
  | createOrdersFailed : InitError
  | createOrderItemsFailed : InitError
deriving DecidableEq

/-- Effect of the first `ExecContext` of `InitDB`: `CREATE TABLE IF NOT
EXISTS orders` plus its two indexes — each object is created if absent and
left untouched (with no error) if present. -/
def execCreateOrders (s : Schema) : Schema :=
  { s with ordersTable := true, idxOrdersUserId := true, idxOrdersCreatedAt := true }

/-- Effect of the second `ExecContext` of `InitDB`: `CREATE TABLE IF NOT
EXISTS order_items` plus its index. -/
def execCreateOrderItems (s : Schema) : Schema :=
  { s with orderItemsTable := true, idxOrderItemsOrderId := true }

/-- `InitDB` from db.go: run the two DDL batches in order, stopping at the
first injected engine failure. DDL is not transactional across the two
`ExecContext` calls, so a schema change made by the first batch survives a
failure of the second. -/
def InitDB (oracle : Fin 2 → Bool) (s : Schema) : Except InitError Unit × Schema :=
  if oracle 0 then (Except.error InitError.createOrdersFailed, s)
  else
    let s1 := execCreateOrders s
    if oracle 1 then (Except.error InitError.createOrderItemsFailed, s1)
    else (Except.ok (), execCreateOrderItems s1)

/-- Rollback helper: whenever `SaveOrder` returns an error — at begin, header
insert, item insert or commit — the store it hands back is the caller's
original, unmodified state. -/
theorem saveOrder_error_state (st : DBState) (oracle : SaveStep → Bool)
    (orderID userID email : GoStr) (address : Address)
    (creditCard : CreditCardInfo) (total : Money) (items : List CartItem)
    (trackingID : GoStr) (e : SaveError) (st' : DBState)
    (h : SaveOrder st oracle orderID userID email address creditCard total
          items trackingID = (Except.error e, st')) : st' = st := by
  unfold SaveOrder at h
  split at h
  · injection h with h1 h2
    exact h2.symm
  · split at h
    · injection h with h1 h2
      exact h2.symm
    · split at h
      · injection h with h1 h2
        exact h2.symm
      · split at h
        · injection h with h1 h2
          exact h2.symm
        · injection h with h1 h2
          cases h1

/-- Success helper: a committed `SaveOrder` implies the header insert saw no
duplicate `order_id`, and the resulting store is the original with exactly
the assembled header row appended and the clock advanced. -/
theorem saveOrder_ok_state (st : DBState) (oracle : SaveStep → Bool)
    (orderID userID email : GoStr) (address : Address)
    (creditCard : CreditCardInfo) (total : Money) (items : List CartItem)
    (trackingID : GoStr) (st' : DBState)
    (h : SaveOrder st oracle orderID userID email address creditCard total
          items trackingID = (Except.ok (), st')) :
    st.orders.any (fun o => o.OrderID == orderID) = false ∧
    st'.orders = st.orders ++
      [savedRow st orderID userID email address creditCard total trackingID] ∧
    st'.now = st.now + 1 := by
  unfold SaveOrder at h
  split at h
  · injection h with h1 h2
    cases h1
  · split at h
    · injection h with h1 h2
      cases h1
    · rename_i hdup
      simp only [Bool.or_eq_true, not_or, Bool.not_eq_true] at hdup
      split at h
      · injection h with h1 h2
        cases h1
      · split at h
        · injection h with h1 h2
          cases h1
        · injection h with h1 h2
          exact ⟨hdup.2, h2 ▸ rfl, h2 ▸ rfl⟩

/-- Lookup helper: appending a row whose key is absent from the table makes
the point lookup on that key find exactly the appended row. -/
theorem find_append_fresh (l : List Order) (row : Order) (orderID : GoStr)
    (hfresh : l.any (fun o => o.OrderID == orderID) = false)
    (hrow : row.OrderID = orderID) :
    (l ++ [row]).find? (fun o => o.OrderID == orderID) = some row := by
  have hnone : l.find? (fun o => o.OrderID == orderID) = none :=
    List.find?_eq_none.mpr (List.any_eq_false.mp hfresh)
  rw [List.find?_append, hnone, Option.none_or]
  simp [List.find?, hrow]

/-- Read-back helper: after a committed `SaveOrder`, `GetOrder` on the same
`orderID` returns precisely the header row the write assembled. -/
theorem getOrder_after_save (st : DBState) (oracle : SaveStep → Bool)
    (orderID userID email : GoStr) (address : Address)
    (creditCard : CreditCardInfo) (total : Money) (items : List CartItem)
    (trackingID : GoStr) (st' : DBState)
    (h : SaveOrder st oracle orderID userID email address creditCard total
          items trackingID = (Except.ok (), st')) :
    GetOrder st' orderID = Except.ok
      (savedRow st orderID userID email address creditCard total trackingID) := by
  obtain ⟨hfresh, horders, -⟩ :=
    saveOrder_ok_state st oracle orderID userID email address creditCard total
      items trackingID st' h
  unfold GetOrder
  rw [horders, find_append_fresh _ _ _ hfresh rfl]

/-- Not-found helper: when no row of the `orders` table carries the looked-up
key, `GetOrder` returns the distinct not-found condition. -/
theorem getOrder_eq_notFound (st : DBState) (orderID : GoStr)
    (h : st.orders.any (fun o => o.OrderID == orderID) = false) :
    GetOrder st orderID = Except.error (GetError.notFound orderID) := by
  unfold GetOrder
  rw [List.find?_eq_none.mpr (List.any_eq_false.mp h)]

/-- A stored card value of the shape `maskCreditCard` produces: either the
short-input sentinel, or the fixed 15-character prefix followed by exactly 4
trailing characters. Such a value reveals at most 4 characters of the raw
card number. -/
def maskShaped (cc : GoStr) : Bool :=
  cc == gs ("****") ||
    (cc.take 15 == gs ("****-****-****-") && cc.length == 19)

/-- Every output of `maskCreditCard` is mask-shaped. -/
theorem maskShaped_maskCreditCard (raw : GoStr) :
    maskShaped (maskCreditCard raw) = true := by
  unfold maskShaped maskCreditCard
  split
  · simp
  · rename_i hlen
    have h15 : (gs ("****-****-****-")).length = 15 := by decide
    have hdrop : (raw.drop (raw.length - 4)).length = 4 := by
      rw [List.length_drop]
      omega
    rw [Bool.or_eq_true, Bool.and_eq_true]
    refine Or.inr ⟨?_, ?_⟩
    · rw [← h15, List.take_left, beq_self_eq_true]
    · rw [List.length_append, h15, hdrop]
      decide

/-- Invariant of the `orders` table: every persisted `credit_card_number`
value is mask-shaped, so raw digits beyond the last four are absent. -/
def cardsMasked (st : DBState) : Bool :=
  st.orders.all (fun o => maskShaped o.CreditCardNumber)

/-- Oracle under which the engine never fails for infrastructure reasons. -/
def noFail : SaveStep → Bool := fun _ => false

/-- Oracle under which `BeginTx` fails and every other step succeeds. -/
def failBegin : SaveStep → Bool := fun s => decide (s = SaveStep.beginTx)

/-- A freshly bootstrapped, empty store. -/
def dbEmpty : DBState := { orders := [], order_items := [], nextItemID := 1, now := 0 }

/-- Sample shipping address. -/
def addrEx : Address :=
  { StreetAddress := gs ("1 Main St"), City := gs ("Springfield"),
    State := gs ("IL"), Country := gs ("US"), ZipCode := gs ("62704") }

/-- Sample payment details. -/
def cardEx : CreditCardInfo :=
  { CreditCardNumber := gs ("4111111111111111"), CreditCardCvv := gs ("123"),
    CreditCardExpirationMonth := 1, CreditCardExpirationYear := 2030 }

/-- Sample order total: 10 units and 500000000 nanos. -/
def moneyEx : Money := { CurrencyCode := gs ("USD"), Units := 10, Nanos := 500000000 }

/-- Sample cart contents. -/
def itemsEx : List CartItem := [{ ProductId := gs ("OLJCESPC7Z"), Quantity := 2 }]

/-- The store after one successful `SaveOrder` of order `ORD-1` for
`user-1` into the empty store. -/
def stEx1 : DBState :=
  (SaveOrder dbEmpty noFail (gs ("ORD-1")) (gs ("user-1")) (gs ("a@b.c"))
    addrEx cardEx moneyEx itemsEx (gs ("TRK-1"))).2

/-- C1: for valid input (non-empty `orderID` and `userID`), a `SaveOrder`
that completes followed by `GetOrder` on the same `orderID` returns a record
whose every field equals the corresponding input — addresses, CVV, expiry,
currency and tracking id verbatim, the total as the decimal derived from the
input `Money` — except the card number, which is the masked form of the
input card number (`created_at` carries the store clock, being
store-assigned rather than an input). -/
theorem saveOrder_getOrder_roundtrip (st : DBState) (oracle : SaveStep → Bool)
    (orderID userID email : GoStr) (address : Address)
    (creditCard : CreditCardInfo) (total : Money) (items : List CartItem)
    (trackingID : GoStr) (st' : DBState)
    (_hoid : orderID ≠ []) (_huid : userID ≠ [])
    (hsave : SaveOrder st oracle orderID userID email address creditCard total
              items trackingID = (Except.ok (), st')) :
    GetOrder st' orderID = Except.ok
      { OrderID := orderID
        UserID := userID
        Email := email
        StreetAddress := address.StreetAddress
        City := address.City
        State := address.State
        Country := address.Country
        ZipCode := address.ZipCode
        CreditCardNumber := maskCreditCard creditCard.CreditCardNumber
        CreditCardCVV := creditCard.CreditCardCvv
        CreditCardExpirationMonth := creditCard.CreditCardExpirationMonth
        CreditCardExpirationYear := creditCard.CreditCardExpirationYear
        OrderTotal := moneyDecimal total
        CurrencyCode := total.CurrencyCode
        ShippingTrackingID := trackingID
        CreatedAt := st.now } :=
  getOrder_after_save st oracle orderID userID email address creditCard total
    items trackingID st' hsave

/-- Evaluates `saveOrder_getOrder_roundtrip` on a concrete save of `ORD-1`
into the empty store, discharging the validity and completion hypotheses. -/
theorem saveOrder_getOrder_roundtrip_witness :
    GetOrder stEx1 (gs ("ORD-1")) = Except.ok
      { OrderID := gs ("ORD-1")
        UserID := gs ("user-1")
        Email := gs ("a@b.c")
        StreetAddress := addrEx.StreetAddress
        City := addrEx.City
        State := addrEx.State
        Country := addrEx.Country
        ZipCode := addrEx.ZipCode
        CreditCardNumber := maskCreditCard cardEx.CreditCardNumber
        CreditCardCVV := cardEx.CreditCardCvv
        CreditCardExpirationMonth := cardEx.CreditCardExpirationMonth
        CreditCardExpirationYear := cardEx.CreditCardExpirationYear
        OrderTotal := moneyDecimal moneyEx
        CurrencyCode := moneyEx.CurrencyCode
        ShippingTrackingID := gs ("TRK-1")
        CreatedAt := dbEmpty.now } :=
  saveOrder_getOrder_roundtrip dbEmpty noFail (gs ("ORD-1")) (gs ("user-1"))
    (gs ("a@b.c")) addrEx cardEx moneyEx itemsEx (gs ("TRK-1")) stEx1
    (by decide) (by decide) rfl

/-- C5: the persisted order total is the whole-unit part of the input
`Money` plus its nano part divided by 1e9 (modelled in exact arithmetic);
in particular units=10, nanos=500000000 gives 10.5 and units=0, nanos=0
gives 0. -/
theorem saveOrder_total_decimal (st : DBState) (oracle : SaveStep → Bool)
    (orderID userID email : GoStr) (address : Address)
    (creditCard : CreditCardInfo) (total : Money) (items : List CartItem)
    (trackingID : GoStr) (st' : DBState)
    (hsave : SaveOrder st oracle orderID userID email address creditCard total
              items trackingID = (Except.ok (), st')) :
    (GetOrder st' orderID).map (fun o => o.OrderTotal) =
      Except.ok ((total.Units : Rat) + (total.Nanos : Rat) / 1000000000) ∧
    moneyDecimal { CurrencyCode := gs ("USD"), Units := 10, Nanos := 500000000 }
      = (10.5 : Rat) ∧
    moneyDecimal { CurrencyCode := gs ("USD"), Units := 0, Nanos := 0 } = 0 := by
  refine ⟨?_, by norm_num [moneyDecimal], by norm_num [moneyDecimal]⟩
  rw [getOrder_after_save st oracle orderID userID email address creditCard
        total items trackingID st' hsave]
  rfl

/-- Evaluates `saveOrder_total_decimal` on the concrete save of `ORD-1`
(units=10, nanos=500000000), discharging the completion hypothesis. -/
theorem saveOrder_total_decimal_witness :
    (GetOrder stEx1 (gs ("ORD-1"))).map (fun o => o.OrderTotal) =
      Except.ok ((moneyEx.Units : Rat) + (moneyEx.Nanos : Rat) / 1000000000) ∧
    moneyDecimal { CurrencyCode := gs ("USD"), Units := 10, Nanos := 500000000 }
      = (10.5 : Rat) ∧
    moneyDecimal { CurrencyCode := gs ("USD"), Units := 0, Nanos := 0 } = 0 :=
  saveOrder_total_decimal dbEmpty noFail (gs ("ORD-1")) (gs ("user-1"))
    (gs ("a@b.c")) addrEx cardEx moneyEx itemsEx (gs ("TRK-1")) stEx1 rfl

/-- C9: the `created_at` value persisted by a completed `SaveOrder` is the
store clock at write time — a value of the store state alone, equal for any
choice of the caller-provided arguments, which do not include a timestamp. -/
theorem saveOrder_timestamp_store_assigned (st : DBState)
    (oracle : SaveStep → Bool) (orderID userID email : GoStr)
    (address : Address) (creditCard : CreditCardInfo) (total : Money)
    (items : List CartItem) (trackingID : GoStr) (st' : DBState)
    (hsave : SaveOrder st oracle orderID userID email address creditCard total
              items trackingID = (Except.ok (), st')) :
    (GetOrder st' orderID).map (fun o => o.CreatedAt) = Except.ok st.now := by
  rw [getOrder_after_save st oracle orderID userID email address creditCard
        total items trackingID st' hsave]
  rfl

/-- Evaluates `saveOrder_timestamp_store_assigned` on the concrete save of
`ORD-1`, discharging the completion hypothesis: the stored timestamp is the
empty store's clock value. -/
theorem saveOrder_timestamp_store_assigned_witness :
    (GetOrder stEx1 (gs ("ORD-1"))).map (fun o => o.CreatedAt) =
      Except.ok dbEmpty.now :=
  saveOrder_timestamp_store_assigned dbEmpty noFail (gs ("ORD-1"))
    (gs ("user-1")) (gs ("a@b.c")) addrEx cardEx moneyEx itemsEx
    (gs ("TRK-1")) stEx1 rfl

/-- C8: the card value reaching durable storage is always the masked form.
If every stored card value is mask-shaped, then after any `SaveOrder` —
committed or rolled back — every stored card value is still mask-shaped, and
the row a committed call persisted carries exactly the masked input card
number, never the raw digits beyond the last four. -/
theorem saveOrder_card_always_masked (st : DBState) (oracle : SaveStep → Bool)
    (orderID userID email : GoStr) (address : Address)
    (creditCard : CreditCardInfo) (total : Money) (items : List CartItem)
    (trackingID : GoStr) (r : Except SaveError Unit) (st' : DBState)
    (hres : SaveOrder st oracle orderID userID email address creditCard total
             items trackingID = (r, st'))
    (hinv : cardsMasked st = true) :
    cardsMasked st' = true ∧
    (r = Except.ok () →
      (GetOrder st' orderID).map (fun o => o.CreditCardNumber) =
        Except.ok (maskCreditCard creditCard.CreditCardNumber)) := by
  cases r with
  | error e =>
    have hst : st' = st :=
      saveOrder_error_state st oracle orderID userID email address creditCard
        total items trackingID e st' hres
    subst hst
    exact ⟨hinv, fun hc => Except.noConfusion hc⟩
  | ok u =>
    cases u
    obtain ⟨-, horders, -⟩ :=
      saveOrder_ok_state st oracle orderID userID email address creditCard
        total items trackingID st' hres
    constructor
    · unfold cardsMasked at hinv ⊢
      rw [horders, List.all_append, hinv, Bool.true_and]
      simp only [List.all_cons, List.all_nil, Bool.and_true]
      exact maskShaped_maskCreditCard creditCard.CreditCardNumber
    · intro
      rw [getOrder_after_save st oracle orderID userID email address creditCard
            total items trackingID st' hres]
      rfl

/-- Evaluates `saveOrder_card_always_masked` on the concrete save of `ORD-1`
into the empty store, discharging the result and invariant hypotheses:
the resulting store is fully masked. -/
theorem saveOrder_card_always_masked_witness :
    cardsMasked stEx1 = true ∧
    ((Except.ok () : Except SaveError Unit) = Except.ok () →
      (GetOrder stEx1 (gs ("ORD-1"))).map (fun o => o.CreditCardNumber) =
        Except.ok (maskCreditCard cardEx.CreditCardNumber)) :=
  saveOrder_card_always_masked dbEmpty noFail (gs ("ORD-1")) (gs ("user-1"))
    (gs ("a@b.c")) addrEx cardEx moneyEx itemsEx (gs ("TRK-1"))
    (Except.ok ()) stEx1 rfl rfl

/-- C2 as stated is refuted by a duplicate save: with `ORD-1` already stored,
a second `SaveOrder` of `ORD-1` fails at the header insert and is rolled
back, yet the subsequent `GetOrder` on `ORD-1` returns the previously
committed order, not NotFound. -/
theorem saveOrder_atomic_cex :
    (SaveOrder stEx1 noFail (gs ("ORD-1")) (gs ("user-2")) (gs ("x@y.z"))
      addrEx cardEx moneyEx itemsEx (gs ("TRK-9"))).1 =
        Except.error SaveError.insertOrderFailed ∧
    GetOrder (SaveOrder stEx1 noFail (gs ("ORD-1")) (gs ("user-2"))
      (gs ("x@y.z")) addrEx cardEx moneyEx itemsEx (gs ("TRK-9"))).2
      (gs ("ORD-1")) ≠ Except.error (GetError.notFound (gs ("ORD-1"))) :=
  ⟨rfl, fun hc => Except.noConfusion hc⟩

/-- C2 (amended): `SaveOrder` is atomic. If any step — begin, header insert,
any item insert, or commit — fails, the transaction is rolled back before
the error is returned and no row of either table from the attempted write
survives (the store is exactly the pre-call state); and, provided no order
with that `orderID` existed before the call, a subsequent `GetOrder` on that
`orderID` returns NotFound. -/
theorem saveOrder_atomic_rollback (st : DBState) (oracle : SaveStep → Bool)
    (orderID userID email : GoStr) (address : Address)
    (creditCard : CreditCardInfo) (total : Money) (items : List CartItem)
    (trackingID : GoStr) (e : SaveError) (st' : DBState)
    (hfail : SaveOrder st oracle orderID userID email address creditCard total
              items trackingID = (Except.error e, st')) :
    st' = st ∧
    (st.orders.any (fun o => o.OrderID == orderID) = false →
      GetOrder st' orderID = Except.error (GetError.notFound orderID)) := by
  have hst : st' = st :=
    saveOrder_error_state st oracle orderID userID email address creditCard
      total items trackingID e st' hfail
  subst hst
  exact ⟨rfl, fun hfresh => getOrder_eq_notFound st' orderID hfresh⟩

/-- Evaluates `saveOrder_atomic_rollback` on a concrete failing save: with
`BeginTx` failing on the empty store, the store is unchanged and `GetOrder`
on the attempted id returns NotFound. -/
theorem saveOrder_atomic_rollback_witness :
    SaveOrder dbEmpty failBegin (gs ("ORD-2")) (gs ("user-1")) (gs ("a@b.c"))
      addrEx cardEx moneyEx itemsEx (gs ("TRK-2")) =
      (Except.error SaveError.beginFailed, dbEmpty) ∧
    GetOrder dbEmpty (gs ("ORD-2")) =
      Except.error (GetError.notFound (gs ("ORD-2"))) :=
  ⟨rfl,
   (saveOrder_atomic_rollback dbEmpty failBegin (gs ("ORD-2")) (gs ("user-1"))
      (gs ("a@b.c")) addrEx cardEx moneyEx itemsEx (gs ("TRK-2"))
      SaveError.beginFailed dbEmpty rfl).2 rfl⟩

/-- C3: for every `orderID` with no matching row, `GetOrder` returns the
distinct not-found condition — the `notFound` constructor, never the generic
query/decode failure — so callers can branch on the constructor without
inspecting error text. -/
theorem getOrder_missing_is_notFound (st : DBState) (orderID : GoStr)
    (h : st.orders.any (fun o => o.OrderID == orderID) = false) :
    GetOrder st orderID = Except.error (GetError.notFound orderID) ∧
    ∀ e, GetOrder st orderID = Except.error e → e ≠ GetError.queryFailed := by
  have h1 := getOrder_eq_notFound st orderID h
  refine ⟨h1, fun e he => ?_⟩
  rw [h1] at he
  injection he with h2
  subst h2
  exact fun hc => GetError.noConfusion hc

/-- Evaluates `getOrder_missing_is_notFound` on the empty store at a never
written identifier, discharging the no-row hypothesis. -/
theorem getOrder_missing_is_notFound_witness :
    GetOrder dbEmpty (gs ("ORD-404")) =
      Except.error (GetError.notFound (gs ("ORD-404"))) :=
  (getOrder_missing_is_notFound dbEmpty (gs ("ORD-404")) rfl).1

/-- C6: `GetUserOrders` succeeds on every store and user, returning a
permutation of exactly the rows owned by that user, sorted by creation
timestamp descending (most recent first); a user owning no rows gets the
empty sequence, with no error. -/
theorem getUserOrders_sorted_desc (st : DBState) (userID : GoStr) :
    ∃ l, GetUserOrders st userID = Except.ok l ∧
      List.Perm l (userOrderRows st userID) ∧
      List.Sorted createdDesc l ∧
      (userOrderRows st userID = [] → l = []) := by
  refine ⟨List.insertionSort createdDesc (userOrderRows st userID), rfl,
    List.perm_insertionSort createdDesc (userOrderRows st userID),
    List.sorted_insertionSort createdDesc (userOrderRows st userID), ?_⟩
  intro h
  rw [h]
  rfl

/-- Evaluates `getUserOrders_sorted_desc` on the empty store, discharging
the zero-orders hypothesis there: the call returns the empty sequence and
no error. -/
theorem getUserOrders_sorted_desc_witness :
    GetUserOrders dbEmpty (gs ("user-9")) = Except.ok [] := by
  obtain ⟨l, hl, -, -, hemp⟩ := getUserOrders_sorted_desc dbEmpty (gs ("user-9"))
  rw [hl, hemp rfl]

/-- C7: schema bootstrap is idempotent. With no engine failure injected,
`InitDB` reports no error on any starting schema — in particular one where
the tables and indexes already exist — and a second run also reports no
error and leaves the schema exactly as the first run left it. -/
theorem initDB_idempotent (oracle : Fin 2 → Bool) (s : Schema)
    (hok : ∀ i, oracle i = false) :
    (InitDB oracle s).1 = Except.ok () ∧
    (InitDB oracle (InitDB oracle s).2).1 = Except.ok () ∧
    (InitDB oracle (InitDB oracle s).2).2 = (InitDB oracle s).2 := by
  simp [InitDB, hok 0, hok 1, execCreateOrders, execCreateOrderItems]

/-- Evaluates `initDB_idempotent` with a failure-free oracle on the schema
in which every table and index already exists. -/
theorem initDB_idempotent_witness :
    (InitDB (fun _ => false)
      { ordersTable := true, idxOrdersUserId := true, idxOrdersCreatedAt := true,
        orderItemsTable := true, idxOrderItemsOrderId := true }).1 =
      Except.ok () ∧
    (InitDB (fun _ => false) (InitDB (fun _ => false)
      { ordersTable := true, idxOrdersUserId := true, idxOrdersCreatedAt := true,
        orderItemsTable := true, idxOrderItemsOrderId := true }).2).1 =
      Except.ok () ∧
    (InitDB (fun _ => false) (InitDB (fun _ => false)
      { ordersTable := true, idxOrdersUserId := true, idxOrdersCreatedAt := true,
        orderItemsTable := true, idxOrderItemsOrderId := true }).2).2 =
    (InitDB (fun _ => false)
      { ordersTable := true, idxOrdersUserId := true, idxOrdersCreatedAt := true,
        orderItemsTable := true, idxOrderItemsOrderId := true }).2 :=
  initDB_idempotent (fun _ => false)
    { ordersTable := true, idxOrdersUserId := true, idxOrdersCreatedAt := true,
      orderItemsTable := true, idxOrderItemsOrderId := true }
    (fun _ => rfl)
